import Mathlib

/-!
Verification of the MCP weather server dispatch engine
(`server/mcp_server.py`, `server/weather_service.py`,
`server/langchain_integration.py`, `server/models.py`).

The Python source is shallowly embedded: Python dict/list/str/number values
become a `Json` inductive, exceptions become a `PyResult` sum, `async`
handlers become pure functions (the only effects in the dispatch paths are
logging, which is dropped, and the external network calls, which the source
skips in mock mode: no `WEATHER_API_KEY` and no `OPENAI_API_KEY`).
All numeric values are modelled as exact rationals; every number the mock
weather paths produce is a multiple of one tenth, where exact rationals and
Python floats agree.
-/

/-- A single ASCII apostrophe, written via its code point. -/
def apos : String := String.singleton (Char.ofNat 39)

/-- Lexicographic order on character lists (the standard string order). -/
def listLtChar : List Char → List Char → Bool
  | [], [] => false
  | [], _ :: _ => true
  | _ :: _, [] => false
  | a :: as, b :: bs => if a < b then true else if b < a then false else listLtChar as bs

/-- Strict lexicographic order on strings, structurally computable. -/
def strLt (a b : String) : Bool := listLtChar a.data b.data

/-- Nonempty-suffix search: does `pat` occur as a contiguous sublist of `hay`?
Models the Python substring test `pat in hay`. -/
def listHasSub (pat : List Char) : List Char → Bool
  | [] => pat.isEmpty
  | c :: rest => pat.isPrefixOf (c :: rest) || listHasSub pat rest

/-- Python `pat in s` substring test. -/
def strContains (s pat : String) : Bool := listHasSub pat.data s.data

/-- Python `s.startswith(p)` / Lean `String.startsWith`, structurally computable. -/
def strStartsWith (s p : String) : Bool := p.data.isPrefixOf s.data

/-- Python `str.lower()` (ASCII, which covers every string the server handles). -/
def pyLower (s : String) : String := String.mk (s.data.map Char.toLower)

/-- One step of Python `str.title()`: uppercase a letter that follows a
non-letter, lowercase the rest; the boolean tracks whether the previous
character was a letter. -/
def pyTitleAux : Bool → List Char → List Char
  | _, [] => []
  | prevAlpha, c :: rest =>
    if c.isAlpha then
      (if prevAlpha then c.toLower else c.toUpper) :: pyTitleAux true rest
    else
      c :: pyTitleAux false rest

/-- Python `str.title()` (ASCII). -/
def pyTitle (s : String) : String := String.mk (pyTitleAux false s.data)

/-- Python zero-padded two-digit formatting of a natural number (format code 02d). -/
def pad02 (n : Nat) : String := if n < 10 then "0" ++ toString n else toString n

/-- Round-half-to-even to the nearest integer, the tie rule of Python
`round`. -/
def roundHalfEven (q : ℚ) : ℤ :=
  if q - ⌊q⌋ < 1 / 2 then ⌊q⌋
  else if 1 / 2 < q - ⌊q⌋ then ⌊q⌋ + 1
  else if ⌊q⌋ % 2 = 0 then ⌊q⌋ else ⌊q⌋ + 1

/-- Python `round(q, 1)`: round to one decimal place, ties to even. -/
def pyRound1 (q : ℚ) : ℚ := (roundHalfEven (10 * q) : ℚ) / 10

/-- Python `str(x)` for a float that is an exact multiple of one tenth
(every float the weather paths format is): renders sign, integer part, one
decimal digit. -/
def pyFloatStr (q : ℚ) : String :=
  let t : ℤ := ⌊q * 10⌋
  let s := if t < 0 then "-" else ""
  let a := t.natAbs
  s ++ toString (a / 10) ++ "." ++ toString (a % 10)

/-- JSON-like values: the shallow embedding of the Python objects carried in
`params` and `result` mappings. -/
inductive Json where
  | null
  | jbool (b : Bool)
  | str (s : String)
  | num (q : ℚ)
  | arr (elems : List Json)
  | obj (fields : List (String × Json))

/-- Python `x == "lit"` for a string literal: true exactly when `x` is an
equal string (comparisons between a string and any other type are `False`
in Python, never an error). -/
def Json.eqStr : Json → String → Bool
  | .str s, t => s == t
  | _, _ => false

/-- Python truthiness of a value (`if not x`). -/
def Json.truthy : Json → Bool
  | .null => false
  | .jbool b => b
  | .str s => !(s == "")
  | .num q => !(q == 0)
  | .arr l => !l.isEmpty
  | .obj l => !l.isEmpty

/-- Python `str(x)` interpolation as used in the f-strings of the server.
The container cases are placeholders: no claim (and no reachable message in
the claims) interpolates a list or dict. -/
def Json.pyStr : Json → String
  | .null => "None"
  | .jbool true => "True"
  | .jbool false => "False"
  | .str s => s
  | .num q => if q.den = 1 then toString q.num else pyFloatStr q
  | .arr _ => "<list>"
  | .obj _ => "<dict>"

/-- Exception as message: the AttributeError text raised by calling the
method named get on Python None, apostrophes included. -/
def pyNoneGetAttrMsg : String :=
  apos ++ "NoneType" ++ apos ++ " object has no attribute " ++ apos ++ "get" ++ apos

/-- Exception as message for `.get` on a non-dict value (the Python message
carries the concrete type name, which the embedding omits). -/
def noGetAttrMsg : String := "object has no attribute " ++ apos ++ "get" ++ apos

/-- Exception as message for `.lower()` on a non-string value (the Python
message carries the concrete type name, which the embedding omits). -/
def noLowerAttrMsg : String := "object has no attribute " ++ apos ++ "lower" ++ apos

/-- Outcome of running a piece of Python code: a value, or a raised
exception carrying `str(e)`. -/
inductive PyResult (α : Type) where
  | ok (val : α)
  | exc (msg : String)

/-- Python `d.get(key)` where `d` is expected to be a dict: raises
`AttributeError` on any non-dict value. -/
def jsonGet (d : Json) (key : String) : PyResult (Option Json) :=
  match d with
  | .obj fields => .ok (List.lookup key fields)
  | _ => .exc noGetAttrMsg

/-- Embeds `models.MCPRequest.id` and `models.MCPResponse.id` are
`Union[str, int]`; the two arms are kept apart, never coerced. -/
inductive RId where
  | str (s : String)
  | num (n : Int)
deriving DecidableEq

/-- Embeds `models.MCPError`: an integer code, a message string, optional data. -/
structure MCPError where
  code : Int
  message : String
  data : Option Json := none

/-- Embeds `models.MCPRequest`: the inbound JSON-RPC envelope. -/
structure MCPRequest where
  jsonrpc : String := "2.0"
  id : RId
  method : String
  params : Option (List (String × Json)) := none

/-- Embeds `models.MCPResponse`: the outbound JSON-RPC envelope. The `error` field
is always built from `MCPError(...).model_dump()`, so it is kept structured. -/
structure MCPResponse where
  jsonrpc : String := "2.0"
  id : RId
  result : Option Json := none
  error : Option MCPError := none

/-- Python `not request.params or key not in request.params` followed by
`request.params[key]`, folded into one lookup: an absent or empty dict has
no keys, so the source guard fails exactly when the lookup does. -/
def getParam (params : Option (List (String × Json))) (key : String) : Option Json :=
  match params with
  | none => none
  | some ps => List.lookup key ps

/-- Embeds `models.WeatherResponse`. -/
structure WeatherResponse where
  location : String
  temperature : ℚ
  description : String
  humidity : Int
  wind_speed : ℚ
  units : String

/-- One row of the `mock_data` dict in `WeatherService._get_mock_weather`. -/
structure MockEntry where
  temp : ℚ
  desc : String
  humidity : Int
  wind : ℚ

/-- The `mock_data` dict lookup of `WeatherService._get_mock_weather`,
including the default row for unknown locations. -/
def mock_lookup (key : String) : MockEntry :=
  if key = "new york" then ⟨22.5, "partly cloudy", 65, 3.2⟩
  else if key = "london" then ⟨15.8, "light rain", 78, 4.1⟩
  else if key = "tokyo" then ⟨28.3, "sunny", 52, 2.8⟩
  else if key = "paris" then ⟨18.7, "overcast", 71, 3.5⟩
  else if key = "sydney" then ⟨25.1, "clear sky", 58, 4.5⟩
  else ⟨20.0, "partly cloudy", 60, 3.0⟩

/-- Embeds `WeatherService._get_mock_weather(location, units)`. -/
def get_mock_weather (location units : String) : WeatherResponse :=
  let data := mock_lookup (pyLower location)
  let temperature := if units = "imperial" then data.temp * 9 / 5 + 32 else data.temp
  { location := pyTitle location
    temperature := pyRound1 temperature
    description := data.desc
    humidity := data.humidity
    wind_speed := data.wind
    units := units }

/-- Embeds `WeatherService.get_weather(location, units)` in mock mode: with no
`WEATHER_API_KEY` configured the source returns `_get_mock_weather`
directly; the network path is an external collaborator out of scope.
The source default for `units` is `"metric"`; callers of the one-argument
form pass `"metric"` explicitly here. -/
def get_weather (location units : String) : WeatherResponse :=
  get_mock_weather location units

/-- One element of the `forecast` list built by
`WeatherService.get_weather_forecast`. -/
structure ForecastEntry where
  day : Int
  date : String
  temperature : ℚ
  description : String
  humidity : Int
  wind_speed : ℚ

/-- The loop body of `WeatherService.get_weather_forecast` at index `i`. -/
def forecastEntry (base : WeatherResponse) (i : Nat) : ForecastEntry :=
  { day := (i : Int) + 1
    date := "2024-01-" ++ pad02 (15 + i)
    temperature := base.temperature + ((i : ℚ) - 2) * 2
    description := base.description
    humidity := max 30 (min 90 (base.humidity + (i : Int) * 3))
    wind_speed := max 0 (base.wind_speed + (i : ℚ) * 0.5) }

/-- The dict returned by `WeatherService.get_weather_forecast`. -/
structure ForecastResult where
  location : String
  forecast : List ForecastEntry
  units : String

/-- Embeds `WeatherService.get_weather_forecast(location, days)` in mock mode.
Python `range(days)` on an `int` is empty for non-positive `days`, hence
`Int.toNat`. -/
def get_weather_forecast (location : String) (days : Int) : ForecastResult :=
  let base := get_weather location "metric"
  { location := base.location
    forecast := (List.range days.toNat).map (forecastEntry base)
    units := base.units }

/-- Embeds `WeatherLangChainService._generate_mock_insights(weather, activity)`:
the deterministic fallback used when no `OPENAI_API_KEY` is configured. -/
def generate_mock_insights (weather : WeatherResponse) (activity : String) : String :=
  let insights : List String :=
    [if weather.temperature < 0 then "⚠️ Freezing conditions - dress warmly and watch for ice."
     else if weather.temperature < 10 then "🧥 Cold weather - layer up and consider warm beverages."
     else if weather.temperature < 20 then "🌤️ Mild weather - light jacket recommended."
     else if weather.temperature < 30 then "☀️ Pleasant temperature - great weather for most activities."
     else "🌡️ Hot weather - stay hydrated and seek shade when possible."]
  let insights := insights ++
    (if weather.humidity > 80 then ["💧 High humidity - expect to feel warmer than actual temperature."]
     else if weather.humidity < 30 then ["🏜️ Low humidity - stay hydrated and consider moisturizer."]
     else [])
  let insights := insights ++
    (if weather.wind_speed > 10 then ["💨 Strong winds - secure loose items and consider wind-resistant clothing."]
     else if weather.wind_speed > 5 then ["🌬️ Moderate winds - light windbreaker might be helpful."]
     else [])
  let desc := pyLower weather.description
  let insights := insights ++
    (if strContains desc "rain" then ["🌧️ Rainy conditions - bring umbrella and waterproof gear."]
     else if strContains desc "snow" then ["❄️ Snowy conditions - wear non-slip footwear and drive carefully."]
     else if strContains desc "cloud" then ["☁️ Cloudy skies - good for outdoor activities without strong sun."]
     else if strContains desc "clear" || strContains desc "sunny" then
       ["☀️ Clear skies - don" ++ apos ++ "t forget sunscreen and sunglasses."]
     else [])
  let insights := insights ++
    (if pyLower activity ∈ ["running", "jogging", "exercise", "workout"] then
       [if weather.temperature > 25 then "🏃‍♂️ For exercise: Early morning or evening recommended due to heat."
        else if weather.temperature < 5 then "🏃‍♂️ For exercise: Warm up indoors and dress in layers."
        else "🏃‍♂️ For exercise: Great conditions for outdoor workouts!"]
     else if pyLower activity ∈ ["picnic", "outdoor", "park", "hiking"] then
       [if strContains desc "rain" then "🧺 For outdoor activities: Consider indoor alternatives or postpone."
        else "🌳 For outdoor activities: Perfect weather for spending time outside!"]
     else [])
  let result := "Weather Insights for " ++ weather.location ++ ":\n\n" ++
    String.intercalate "\n" (insights.map (fun i => "• " ++ i))
  let result := result ++ "\n\nOverall: The current conditions are " ++ weather.description ++
    " with a temperature of " ++ pyFloatStr weather.temperature ++ "°C. "
  if 15 ≤ weather.temperature ∧ weather.temperature ≤ 25 ∧ weather.humidity < 70 then
    result ++ "These are ideal conditions for most outdoor activities!"
  else if weather.temperature < 5 ∨ weather.temperature > 35 then
    result ++ "Weather conditions are challenging - take extra precautions."
  else
    result ++ "Generally pleasant conditions with minor considerations."

/-- The dict returned by
`WeatherLangChainService._generate_mock_summary_and_advisory`. -/
structure SummaryAdvisory where
  summary : String
  advisory : String
  location : String
  powered_by : String

/-- Embeds `WeatherLangChainService._generate_mock_summary_and_advisory(weather)`:
the deterministic fallback used when no `OPENAI_API_KEY` is configured. -/
def generate_mock_summary_and_advisory (weather : WeatherResponse) : SummaryAdvisory :=
  let summary :=
    if weather.temperature < 0 then
      "❄️ Current conditions in " ++ weather.location ++ " are quite cold at " ++
        pyFloatStr weather.temperature ++ "°C with " ++ weather.description ++
        ". Bundle up warmly as freezing temperatures can be uncomfortable for extended outdoor exposure."
    else if weather.temperature < 10 then
      "🧥 " ++ weather.location ++ " is experiencing cool weather at " ++
        pyFloatStr weather.temperature ++ "°C with " ++ weather.description ++
        ". A warm jacket will keep you comfortable during outdoor activities."
    else if weather.temperature < 25 then
      "🌤️ Pleasant conditions in " ++ weather.location ++ " with " ++
        pyFloatStr weather.temperature ++ "°C and " ++ weather.description ++
        ". Ideal weather for most outdoor activities with light layers recommended."
    else
      "☀️ Warm conditions in " ++ weather.location ++ " at " ++
        pyFloatStr weather.temperature ++ "°C with " ++ weather.description ++
        ". Stay hydrated and seek shade during peak sun hours."
  let desc := pyLower weather.description
  let advisory_items : List String :=
    [if strContains desc "rain" then
       "🚗 Transportation: Exercise caution while driving due to wet road conditions. Allow extra travel time and maintain safe following distances."
     else if strContains desc "snow" then
       "🚗 Transportation: Winter driving conditions present. Use winter tires if available and drive slowly on potentially icy roads."
     else if weather.wind_speed > 15 then
       "🚗 Transportation: Strong winds may affect vehicle stability, especially for high-profile vehicles. Secure loose items."
     else "🚗 Transportation: Good driving conditions with normal precautions recommended."]
  let advisory_items := advisory_items ++
    [if weather.temperature < 0 then
       "🧥 Clothing: Wear insulated winter clothing including hat, gloves, and warm boots. Layer clothing for temperature regulation."
     else if weather.temperature < 10 then
       "🧥 Clothing: Dress in warm layers with a jacket or coat. Don" ++ apos ++ "t forget a hat and gloves for comfort."
     else if weather.temperature > 30 then
       "👕 Clothing: Light, breathable clothing recommended. Wear sunscreen, hat, and sunglasses for sun protection."
     else "👕 Clothing: Comfortable layered clothing suitable for current temperature. Adjust layers as needed."]
  let advisory_items := advisory_items ++
    (if weather.humidity > 80 then
       ["💧 Health: High humidity may make it feel warmer. Stay hydrated and take breaks in air-conditioned spaces if feeling overheated."]
     else if weather.humidity < 30 then
       ["💧 Health: Low humidity may cause dry skin and respiratory discomfort. Use moisturizer and stay hydrated."]
     else [])
  let advisory_items := advisory_items ++
    (if weather.temperature > 30 then
       ["🌡️ Safety: Hot weather advisory - limit outdoor exposure during midday hours (11 AM - 3 PM). Drink plenty of water."]
     else if weather.temperature < -10 then
       ["❄️ Safety: Extreme cold warning - limit outdoor exposure. Watch for signs of frostbite and hypothermia."]
     else [])
  let advisory_items := advisory_items ++
    [if strContains desc "rain" then
       "⏰ Activity Timing: Indoor activities recommended. If going outside, bring waterproof gear and umbrella."
     else if weather.temperature > 25 then
       "⏰ Activity Timing: Best outdoor activity times are early morning (6-9 AM) or evening (6-8 PM) to avoid peak heat."
     else "⏰ Activity Timing: Good conditions for outdoor activities throughout the day with normal precautions."]
  { summary := summary
    advisory := String.intercalate "\n\n" advisory_items
    location := weather.location
    powered_by := "Mock Data (Add OpenAI API key for AI-powered insights)" }

/-- Embeds `WeatherLangChainService.get_weather_insights(location, activity)` in
mock mode (`self.llm is None`): fetch weather (default units) and render the
mock insights. -/
def langchain_get_weather_insights (location activity : String) : String :=
  generate_mock_insights (get_weather location "metric") activity

/-- Embeds `WeatherLangChainService.get_weather_summary_and_advisory(location)` in
mock mode (`self.llm is None`). -/
def langchain_get_weather_summary_and_advisory (location : String) : SummaryAdvisory :=
  generate_mock_summary_and_advisory (get_weather location "metric")

/-- Embeds `MCPServer.handle_initialize`: fixed capabilities, protocol version and
server info (`MCPInitializeResponse.model_dump()`). -/
def initializeResult : Json :=
  .obj [("protocolVersion", .str "2024-11-05"),
        ("capabilities", .obj [("resources", .jbool true), ("tools", .jbool true),
                               ("prompts", .jbool true)]),
        ("serverInfo", .obj [("name", .str "weather-mcp-server"),
                             ("version", .str "1.0.0")])]

/-- Embeds `MCPServer.handle_initialize(request)`. -/
def handle_initialize (req : MCPRequest) : MCPResponse :=
  { id := req.id, result := some initializeResult }

/-- The static resource catalog of `MCPServer.handle_list_resources`
(each `MCPResource.model_dump()`). -/
def resourcesResult : Json :=
  .obj [("resources", .arr
    [.obj [("uri", .str "weather://current"), ("name", .str "Current Weather"),
           ("description", .str "Current weather data for any location"),
           ("mimeType", .str "application/json")],
     .obj [("uri", .str "weather://forecast"), ("name", .str "Weather Forecast"),
           ("description", .str "Multi-day weather forecast"),
           ("mimeType", .str "application/json")]])]

/-- Embeds `MCPServer.handle_list_resources(request)`. -/
def handle_list_resources (req : MCPRequest) : MCPResponse :=
  { id := req.id, result := some resourcesResult }

/-- The `content` dict of `handle_read_resource` for
`weather://current`. -/
def currentResourceContent : Json :=
  .obj [("description", .str "Current weather endpoint"),
        ("endpoint", .str ("/tools/call with name " ++ apos ++ "get_weather" ++ apos)),
        ("parameters", .obj [("location", .str "string (required)"),
                             ("units", .str "string (optional, default: metric)")])]

/-- The `content` dict of `handle_read_resource` for
`weather://forecast`. -/
def forecastResourceContent : Json :=
  .obj [("description", .str "Weather forecast endpoint"),
        ("endpoint", .str ("/tools/call with name " ++ apos ++ "get_forecast" ++ apos)),
        ("parameters", .obj [("location", .str "string (required)"),
                             ("days", .str "integer (optional, default: 5)")])]

/-- The success payload of `handle_read_resource`. The source serializes
`content` as `json.dumps(content, indent=2)` into the `text` field; the
embedding keeps the mapping itself in that position (the serialization is an
injective rendering, so payload identity and distinctness are preserved). -/
def readResourceResult (uri content : Json) : Json :=
  .obj [("contents", .arr
    [.obj [("uri", uri), ("mimeType", .str "application/json"), ("text", content)]])]

/-- Embeds `MCPServer.handle_read_resource(request)`. -/
def handle_read_resource (req : MCPRequest) : MCPResponse :=
  match getParam req.params "uri" with
  | none => { id := req.id, error := some { code := -32602, message := "Missing uri parameter" } }
  | some uri =>
    if uri.eqStr "weather://current" then
      { id := req.id, result := some (readResourceResult uri currentResourceContent) }
    else if uri.eqStr "weather://forecast" then
      { id := req.id, result := some (readResourceResult uri forecastResourceContent) }
    else
      { id := req.id, error := some { code := -32602, message := "Unknown resource: " ++ uri.pyStr } }

/-- The static tool catalog of `MCPServer.handle_list_tools`
(each `MCPTool.model_dump()`, including the JSON-Schema `inputSchema`). -/
def toolsResult : Json :=
  .obj [("tools", .arr
    [.obj [("name", .str "get_weather"),
           ("description", .str "Get current weather for a location"),
           ("inputSchema", .obj
             [("type", .str "object"),
              ("properties", .obj
                [("location", .obj [("type", .str "string"),
                                    ("description", .str "The location to get weather for")]),
                 ("units", .obj [("type", .str "string"),
                                 ("enum", .arr [.str "metric", .str "imperial"]),
                                 ("description", .str "Temperature units"),
                                 ("default", .str "metric")])]),
              ("required", .arr [.str "location"])])],
     .obj [("name", .str "get_forecast"),
           ("description", .str "Get weather forecast for a location"),
           ("inputSchema", .obj
             [("type", .str "object"),
              ("properties", .obj
                [("location", .obj [("type", .str "string"),
                                    ("description", .str "The location to get forecast for")]),
                 ("days", .obj [("type", .str "integer"),
                                ("description", .str "Number of days for forecast"),
                                ("minimum", .num 1), ("maximum", .num 7),
                                ("default", .num 5)])]),
              ("required", .arr [.str "location"])])],
     .obj [("name", .str "get_weather_insights"),
           ("description", .str "Get AI-powered weather insights and recommendations"),
           ("inputSchema", .obj
             [("type", .str "object"),
              ("properties", .obj
                [("location", .obj [("type", .str "string"),
                                    ("description", .str "The location to analyze")]),
                 ("activity", .obj [("type", .str "string"),
                                    ("description", .str "Planned activity (optional)")])]),
              ("required", .arr [.str "location"])])],
     .obj [("name", .str "get_weather_summary_advisory"),
           ("description", .str "Get comprehensive weather summary and travel advisory powered by AI"),
           ("inputSchema", .obj
             [("type", .str "object"),
              ("properties", .obj
                [("location", .obj [("type", .str "string"),
                                    ("description", .str "The location to get summary and advisory for")])]),
              ("required", .arr [.str "location"])])]])]

/-- Embeds `MCPServer.handle_list_tools(request)`. -/
def handle_list_tools (req : MCPRequest) : MCPResponse :=
  { id := req.id, result := some toolsResult }

/-- The result shape shared by every `tools/call` outcome: a single-element
content list holding one text block, next to the isError flag. -/
def toolTextResult (text : String) (isErr : Bool) : Json :=
  .obj [("content", .arr [.obj [("type", .str "text"), ("text", .str text)]]),
        ("isError", .jbool isErr)]

/-- Embeds `arguments.get("location")` followed by the
`if not location: raise ValueError("Location is required")` guard shared by
all four tool branches; a truthy non-string location fails later in
`location.lower()` inside the weather service. -/
def locationArg (arguments : Json) : PyResult String :=
  match jsonGet arguments "location" with
  | .exc e => .exc e
  | .ok v =>
    if v.elim false Json.truthy = false then .exc "Location is required"
    else match v with
      | some (Json.str s) => .ok s
      | _ => .exc noLowerAttrMsg

/-- Embeds `arguments.get("units", "metric")`; a non-string value fails pydantic
validation of the `units: str` field when the `WeatherResponse` is built. -/
def unitsArg (arguments : Json) : PyResult String :=
  match jsonGet arguments "units" with
  | .exc e => .exc e
  | .ok none => .ok "metric"
  | .ok (some (Json.str u)) => .ok u
  | .ok (some _) => .exc "validation error for WeatherResponse"

/-- Embeds `arguments.get("activity", "general")`; a non-string value fails later in
`activity.lower()` inside the mock insights generator. -/
def activityArg (arguments : Json) : PyResult String :=
  match jsonGet arguments "activity" with
  | .exc e => .exc e
  | .ok none => .ok "general"
  | .ok (some (Json.str s)) => .ok s
  | .ok (some _) => .exc noLowerAttrMsg

/-- Embeds `arguments.get("days", 5)`; Python `range` accepts `int` (and `bool`, an
`int` subclass) and raises `TypeError` for anything else. -/
def daysArg (arguments : Json) : PyResult Int :=
  match jsonGet arguments "days" with
  | .exc e => .exc e
  | .ok none => .ok 5
  | .ok (some (Json.num q)) =>
    if q.den = 1 then .ok q.num else .exc "object cannot be interpreted as an integer"
  | .ok (some (Json.jbool b)) => .ok (if b then 1 else 0)
  | .ok (some _) => .exc "object cannot be interpreted as an integer"

/-- The `get_weather` success text of `handle_call_tool`. -/
def weatherText (w : WeatherResponse) (units : String) : String :=
  "Weather in " ++ w.location ++ ":\n" ++
  "Temperature: " ++ pyFloatStr w.temperature ++ "°" ++
    (if units = "imperial" then "F" else "C") ++ "\n" ++
  "Description: " ++ w.description ++ "\n" ++
  "Humidity: " ++ toString w.humidity ++ "%\n" ++
  "Wind Speed: " ++ pyFloatStr w.wind_speed ++ " " ++
    (if units = "imperial" then "mph" else "m/s")

/-- The `get_forecast` success text of `handle_call_tool`: header plus one
line per forecast day, accumulated in order. -/
def forecastText (f : ForecastResult) : String :=
  f.forecast.foldl
    (fun acc day =>
      acc ++ "Day " ++ toString day.day ++ " (" ++ day.date ++ "): " ++
        pyFloatStr day.temperature ++ "°C, " ++ day.description ++ "\n")
    ("Weather forecast for " ++ f.location ++ ":\n")

/-- The body of the `try` block of `MCPServer.handle_call_tool`: the
four-way tool dispatch, with the unknown-tool fallthrough returning the
envelope-level `-32601` error. -/
def call_tool_dispatch (id : RId) (tool_name arguments : Json) : PyResult MCPResponse :=
  if tool_name.eqStr "get_weather" then
    match locationArg arguments with
    | .exc e => .exc e
    | .ok location =>
      match unitsArg arguments with
      | .exc e => .exc e
      | .ok units =>
        let weather := get_weather location units
        .ok { id := id, result := some (toolTextResult (weatherText weather units) false) }
  else if tool_name.eqStr "get_forecast" then
    match locationArg arguments with
    | .exc e => .exc e
    | .ok location =>
      match daysArg arguments with
      | .exc e => .exc e
      | .ok days =>
        let forecast := get_weather_forecast location days
        .ok { id := id, result := some (toolTextResult (forecastText forecast) false) }
  else if tool_name.eqStr "get_weather_insights" then
    match locationArg arguments with
    | .exc e => .exc e
    | .ok location =>
      match activityArg arguments with
      | .exc e => .exc e
      | .ok activity =>
        let insights := langchain_get_weather_insights location activity
        .ok { id := id, result := some (toolTextResult insights false) }
  else if tool_name.eqStr "get_weather_summary_advisory" then
    match locationArg arguments with
    | .exc e => .exc e
    | .ok location =>
      let summary_data := langchain_get_weather_summary_and_advisory location
      .ok { id := id, result := some (toolTextResult
        ("Weather Summary: " ++ summary_data.summary ++
         "\n\nTravel Advisory: " ++ summary_data.advisory) false) }
  else
    .ok { id := id, error := some { code := -32601, message := "Unknown tool: " ++ tool_name.pyStr } }

/-- Embeds `MCPServer.handle_call_tool(request)`: missing `name` gives `-32602`;
any exception from the dispatch body is caught locally and reported as a
result-level failure (`isError: true`), never as an envelope error. -/
def handle_call_tool (req : MCPRequest) : MCPResponse :=
  match getParam req.params "name" with
  | none => { id := req.id, error := some { code := -32602, message := "Missing tool name" } }
  | some tool_name =>
    let arguments := (getParam req.params "arguments").getD (Json.obj [])
    match call_tool_dispatch req.id tool_name arguments with
    | .ok resp => resp
    | .exc e =>
      { id := req.id,
        result := some (toolTextResult
          ("Error executing tool " ++ apos ++ tool_name.pyStr ++ apos ++ ": " ++ e) true) }

/-- The static prompt catalog of `MCPServer.handle_list_prompts`
(each `MCPPrompt.model_dump()`). -/
def promptsResult : Json :=
  .obj [("prompts", .arr
    [.obj [("name", .str "weather_analysis"),
           ("description", .str "Analyze weather conditions for activities"),
           ("arguments", .arr
             [.obj [("name", .str "location"), ("description", .str "Location to analyze"),
                    ("required", .jbool true)],
              .obj [("name", .str "activity"), ("description", .str "Planned activity"),
                    ("required", .jbool false)]])],
     .obj [("name", .str "outfit_recommendation"),
           ("description", .str "Recommend clothing based on weather"),
           ("arguments", .arr
             [.obj [("name", .str "location"),
                    ("description", .str "Location for recommendations"),
                    ("required", .jbool true)]])]])]

/-- Embeds `MCPServer.handle_list_prompts(request)`. -/
def handle_list_prompts (req : MCPRequest) : MCPResponse :=
  { id := req.id, result := some promptsResult }

/-- The `weather_analysis` template string of `handle_get_prompt`. -/
def weather_analysis_prompt_text (location activity : String) : String :=
  "\nAnalyze the current weather conditions in " ++ location ++ " for " ++ activity ++
  ".\n\nConsider the following factors:\n1. Temperature and feels-like temperature\n2. Precipitation probability and conditions\n3. Wind speed and direction\n4. Humidity levels\n5. UV index and sun exposure\n\nProvide recommendations for:\n- Safety considerations\n- Optimal timing\n- Equipment or preparation needed\n- Alternative suggestions if conditions are unfavorable\n"

/-- The `outfit_recommendation` template string of `handle_get_prompt`. -/
def outfit_recommendation_prompt_text (location : String) : String :=
  "\nBased on the current weather conditions in " ++ location ++
  ", recommend appropriate clothing and accessories.\n\nConsider:\n1. Temperature and wind chill\n2. Precipitation and humidity\n3. Sun exposure and UV levels\n4. Seasonal factors\n\nProvide specific recommendations for:\n- Base layers and main clothing\n- Outerwear requirements\n- Footwear suggestions\n- Accessories (hat, sunglasses, umbrella, etc.)\n- Special considerations for different times of day\n"

/-- Embeds `MCPServer.handle_get_prompt(request)`. In the source, the success
`return` is nested inside the unknown-name `else` branch AFTER its `return`
statement, so it is unreachable: for a known prompt name the function
computes `prompt_text` and then falls off the end, returning Python `None`
(modelled as `.ok none`). Only the two error paths return a response. -/
def handle_get_prompt (req : MCPRequest) : PyResult (Option MCPResponse) :=
  match getParam req.params "name" with
  | none => .ok (some { id := req.id, error := some { code := -32602, message := "Missing prompt name" } })
  | some prompt_name =>
    let arguments := (getParam req.params "arguments").getD (Json.obj [])
    if prompt_name.eqStr "weather_analysis" then
      match jsonGet arguments "location" with
      | .exc e => .exc e
      | .ok locv =>
        match jsonGet arguments "activity" with
        | .exc e => .exc e
        | .ok actv =>
          let location := (locv.getD (Json.str "New York")).pyStr
          let activity := (actv.getD (Json.str "outdoor activities")).pyStr
          let _prompt_text := weather_analysis_prompt_text location activity
          .ok none
    else if prompt_name.eqStr "outfit_recommendation" then
      match jsonGet arguments "location" with
      | .exc e => .exc e
      | .ok locv =>
        let location := (locv.getD (Json.str "New York")).pyStr
        let _prompt_text := outfit_recommendation_prompt_text location
        .ok none
    else
      .ok (some { id := req.id, error := some { code := -32601, message := "Unknown prompt: " ++ prompt_name.pyStr } })

/-- The fixed result of `MCPServer.handle_completion`. -/
def completionResult : Json :=
  .obj [("completion", .obj
    [("values", .arr [.str "get_weather", .str "get_forecast",
                      .str "get_weather_insights", .str "get_weather_summary_advisory"]),
     ("total", .num 4), ("hasMore", .jbool false)])]

/-- Embeds `MCPServer.handle_completion(request)`. -/
def handle_completion (req : MCPRequest) : MCPResponse :=
  { id := req.id, result := some completionResult }

/-- Embeds `MCPServer.handle_notification(request)`: returns an empty mapping
as result — except that the `notifications/cancelled` logging line calls
the `get` method of `request.params`, which raises `AttributeError` when
`params` is `None`. The `notifications/progress` line only formats `params`
into an f-string, which never raises. -/
def handle_notification (req : MCPRequest) : PyResult MCPResponse :=
  if req.method = "notifications/cancelled" then
    match req.params with
    | none => .exc pyNoneGetAttrMsg
    | some _ => .ok { id := req.id, result := some (Json.obj []) }
  else
    .ok { id := req.id, result := some (Json.obj []) }

/-- Embed a handler that returns a plain response (never Python `None`)
into the dispatch result type. -/
def liftSome : PyResult MCPResponse → PyResult (Option MCPResponse)
  | .ok r => .ok (some r)
  | .exc e => .exc e

/-- The `try` body of `MCPServer.process_mcp_request`: exact string match on
`method`, with the single prefix-match exception for `notifications/`, and
the `-32601` fallthrough for unmatched methods. -/
def dispatch (req : MCPRequest) : PyResult (Option MCPResponse) :=
  if req.method = "initialize" then .ok (some ( handle_initialize req))
  else if req.method = "resources/list" then .ok (some (handle_list_resources req))
  else if req.method = "resources/read" then .ok (some (handle_read_resource req))
  else if req.method = "tools/list" then .ok (some (handle_list_tools req))
  else if req.method = "tools/call" then .ok (some (handle_call_tool req))
  else if req.method = "prompts/list" then .ok (some (handle_list_prompts req))
  else if req.method = "prompts/get" then handle_get_prompt req
  else if req.method = "completion/complete" then .ok (some (handle_completion req))
  else if strStartsWith req.method "notifications/" then
    liftSome (handle_notification req)
  else
    .ok (some { id := req.id,
                error := some { code := -32601, message := "Method not found: " ++ req.method } })

/-- Embeds `MCPServer.process_mcp_request(request)`: the dispatch body wrapped in
the catch-all `except`, which converts any raised exception into a `-32603`
envelope error. `none` is the Python `None` that `handle_get_prompt` lets
fall through. -/
def process_mcp_request (req : MCPRequest) : Option MCPResponse :=
  match dispatch req with
  | .ok r => r
  | .exc e =>
    some { id := req.id, error := some { code := -32603, message := "Internal error: " ++ e } }

/-- The set of method names `process_mcp_request` matches before its
`-32601` fallthrough. -/
def recognizedMethod (m : String) : Bool :=
  m == "initialize" || m == "resources/list" || m == "resources/read" ||
  m == "tools/list" || m == "tools/call" || m == "prompts/list" ||
  m == "prompts/get" || m == "completion/complete" ||
  strStartsWith m "notifications/"

/-- A rational that is an exact multiple of one tenth is a fixed point of
`round(_, 1)`. -/
theorem pyRound1_tenths (t : ℚ) (k : ℤ) (h : (k : ℚ) = 10 * t) : pyRound1 t = t := by
  have h1 : ⌊(10 : ℚ) * t⌋ = k := by rw [← h]; exact Int.floor_intCast k
  have h2 : (10 : ℚ) * t - (k : ℤ) = 0 := by rw [h]; ring
  unfold pyRound1 roundHalfEven
  rw [h1, h2]
  norm_num
  rw [h]
  ring

/-- Every temperature in the mock table (including the default row) is a
multiple of one tenth, hence fixed by `round(_, 1)`. -/
theorem pyRound1_mock_temp (key : String) :
    pyRound1 (mock_lookup key).temp = (mock_lookup key).temp := by
  unfold mock_lookup
  split
  · exact pyRound1_tenths _ 225 (by norm_num)
  split
  · exact pyRound1_tenths _ 158 (by norm_num)
  split
  · exact pyRound1_tenths _ 283 (by norm_num)
  split
  · exact pyRound1_tenths _ 187 (by norm_num)
  split
  · exact pyRound1_tenths _ 251 (by norm_num)
  · exact pyRound1_tenths _ 200 (by norm_num)

/-- C8: the mock weather lookup is a pure function of `(location, units)` —
the Paris/metric call always returns the one fixed record — and for every
location the imperial temperature equals
`round(temperature_metric * 9/5 + 32, 1)` (where the metric temperature is
the value that same call returns, itself fixed under rounding). -/
theorem mock_weather_deterministic_and_imperial :
    get_mock_weather "Paris" "metric" =
      { location := "Paris", temperature := 18.7, description := "overcast",
        humidity := 71, wind_speed := 3.5, units := "metric" } ∧
    ∀ location : String,
      (get_mock_weather location "imperial").temperature =
        pyRound1 ((get_mock_weather location "metric").temperature * 9 / 5 + 32) := by
  constructor
  · show ({ location := pyTitle "Paris", temperature := pyRound1 18.7,
            description := "overcast", humidity := 71, wind_speed := 3.5,
            units := "metric" } : WeatherResponse) = _
    rw [pyRound1_tenths 18.7 187 (by norm_num)]
    rfl
  · intro location
    show pyRound1 ((mock_lookup (pyLower location)).temp * 9 / 5 + 32) =
      pyRound1 (pyRound1 ((mock_lookup (pyLower location)).temp) * 9 / 5 + 32)
    rw [pyRound1_mock_temp]

/-- The seven mock forecast dates are pairwise strictly increasing as
strings. -/
theorem forecast_dates_mono :
    ∀ i < 7, ∀ j < 7, i < j →
      strLt ("2024-01-" ++ pad02 (15 + i)) ("2024-01-" ++ pad02 (15 + j)) = true := by
  decide

/-- C9: in mock mode, a forecast for `N` days (1 ≤ N ≤ 7) has exactly `N`
entries, their `day` fields are `1..N` in order, and their date strings are
strictly increasing. -/
theorem forecast_length_and_order (location : String) (N : ℕ)
    (_h1 : 1 ≤ N) (h7 : N ≤ 7) :
    (get_weather_forecast location (N : ℤ)).forecast.length = N ∧
    (get_weather_forecast location (N : ℤ)).forecast.map (fun e => e.day) =
      (List.range N).map (fun i => Int.ofNat i + 1) ∧
    ((get_weather_forecast location (N : ℤ)).forecast.map (fun e => e.date)).Pairwise
      (fun a b => strLt a b = true) := by
  have hN : ((N : ℤ)).toNat = N := Int.toNat_natCast N
  refine ⟨?_, ?_, ?_⟩
  · simp [get_weather_forecast, hN]
  · simp only [get_weather_forecast, hN, List.map_map]
    rfl
  · have hmap : (get_weather_forecast location (N : ℤ)).forecast.map (fun e => e.date) =
        (List.range N).map (fun i => "2024-01-" ++ pad02 (15 + i)) := by
      simp only [get_weather_forecast, hN, List.map_map]
      rfl
    rw [hmap, List.pairwise_map]
    refine List.Pairwise.imp_of_mem ?_ (List.pairwise_lt_range N)
    intro a b ha hb hlt
    exact forecast_dates_mono a (lt_of_lt_of_le (List.mem_range.mp ha) h7)
      b (lt_of_lt_of_le (List.mem_range.mp hb) h7) hlt

/-- Witness for C9 at `location = "Paris"`, `N = 3`. -/
theorem forecast_length_and_order_witness :
    (get_weather_forecast "Paris" (3 : ℤ)).forecast.length = 3 ∧
    (get_weather_forecast "Paris" (3 : ℤ)).forecast.map (fun e => e.day) =
      (List.range 3).map (fun i => Int.ofNat i + 1) ∧
    ((get_weather_forecast "Paris" (3 : ℤ)).forecast.map (fun e => e.date)).Pairwise
      (fun a b => strLt a b = true) :=
  forecast_length_and_order "Paris" 3 (by decide) (by decide)

/-- C10: every mock forecast entry has humidity clamped into `[30, 90]` and
a non-negative wind speed, for every location and every requested day count
`N ≥ 1`. -/
theorem forecast_entry_bounds (location : String) (N : ℤ) (_h : 1 ≤ N) :
    ∀ e ∈ (get_weather_forecast location N).forecast,
      30 ≤ e.humidity ∧ e.humidity ≤ 90 ∧ 0 ≤ e.wind_speed := by
  intro e he
  simp only [get_weather_forecast, List.mem_map] at he
  obtain ⟨i, _, rfl⟩ := he
  refine ⟨le_max_left _ _, max_le (by norm_num) (min_le_left _ _), le_max_left _ _⟩

/-- Witness for C10 at `location = "London"`, `N = 2`, first entry. -/
theorem forecast_entry_bounds_witness :
    30 ≤ (forecastEntry (get_weather "London" "metric") 0).humidity ∧
    (forecastEntry (get_weather "London" "metric") 0).humidity ≤ 90 ∧
    0 ≤ (forecastEntry (get_weather "London" "metric") 0).wind_speed :=
  forecast_entry_bounds "London" 2 (by decide)
    (forecastEntry (get_weather "London" "metric") 0)
    (List.mem_map_of_mem _ (by simp))

/-- C5: any method outside the recognized set yields a `-32601` error whose
message contains the literal method name, and no result. -/
theorem method_not_found (req : MCPRequest)
    (h : recognizedMethod req.method = false) :
    process_mcp_request req =
      some { id := req.id, result := none,
             error := some { code := -32601,
                             message := "Method not found: " ++ req.method,
                             data := none } } ∧
    ∃ pre post, "Method not found: " ++ req.method = pre ++ req.method ++ post := by
  simp only [recognizedMethod, Bool.or_eq_false_iff, beq_eq_false_iff_ne, ne_eq] at h
  obtain ⟨⟨⟨⟨⟨⟨⟨⟨h1, h2⟩, h3⟩, h4⟩, h5⟩, h6⟩, h7⟩, h8⟩, h9⟩ := h
  refine ⟨?_, "Method not found: ", "", by simp⟩
  unfold process_mcp_request dispatch
  rw [if_neg h1, if_neg h2, if_neg h3, if_neg h4, if_neg h5, if_neg h6, if_neg h7,
    if_neg h8, if_neg (by simp [h9])]

/-- Witness for C5 at `method = "foo/bar"`. -/
theorem method_not_found_witness :
    process_mcp_request { id := RId.num 1, method := "foo/bar" } =
      some { id := RId.num 1, result := none,
             error := some { code := -32601,
                             message := "Method not found: " ++ "foo/bar",
                             data := none } } ∧
    ∃ pre post, "Method not found: " ++ "foo/bar" = pre ++ "foo/bar" ++ post :=
  method_not_found { id := RId.num 1, method := "foo/bar" } (by decide)

/-- C1: whenever the selected handler of a recognized method raises, the
catch-all funnel of `process_mcp_request` converts the fault into a
`-32603` response interpolating the exception message — it never propagates
(the result is always an envelope, with the request id echoed). -/
theorem handler_exception_funnel (req : MCPRequest) (m : String)
    (_hrec : recognizedMethod req.method = true)
    (h : dispatch req = PyResult.exc m) :
    process_mcp_request req =
      some { id := req.id, result := none,
             error := some { code := -32603,
                             message := "Internal error: " ++ m,
                             data := none } } := by
  unfold process_mcp_request
  rw [h]

/-- Witness for C1: `notifications/cancelled` with absent `params` raises
`AttributeError` inside the handler, and the funnel converts it. -/
theorem handler_exception_funnel_witness :
    process_mcp_request { id := RId.num 9, method := "notifications/cancelled" } =
      some { id := RId.num 9, result := none,
             error := some { code := -32603,
                             message := "Internal error: " ++ pyNoneGetAttrMsg,
                             data := none } } :=
  handler_exception_funnel { id := RId.num 9, method := "notifications/cancelled" }
    pyNoneGetAttrMsg (by decide) rfl

/-- C4 counterexample: `notifications/cancelled` with `params = None` does
NOT return an empty result — the handler raises `AttributeError` on
`request.params.get("requestId")` and the funnel converts it to `-32603`. -/
theorem notifications_cancelled_none_params_errors :
    process_mcp_request { id := RId.num 7, method := "notifications/cancelled" } =
      some { id := RId.num 7, result := none,
             error := some { code := -32603,
                             message := "Internal error: " ++ pyNoneGetAttrMsg,
                             data := none } } ∧
    process_mcp_request { id := RId.num 7, method := "notifications/cancelled" } ≠
      some { id := RId.num 7, result := some (Json.obj []), error := none } := by
  refine ⟨rfl, ?_⟩
  intro hc
  rw [show process_mcp_request { id := RId.num 7, method := "notifications/cancelled" } =
      some { id := RId.num 7, result := none,
             error := some { code := -32603,
                             message := "Internal error: " ++ pyNoneGetAttrMsg,
                             data := none } } from rfl] at hc
  simp at hc

/-- C4 amended: `notifications/progress` returns an empty mapping as result,
with no error, for every `params` shape including `None`;
`notifications/cancelled` does so whenever `params` is a mapping (with
`params` absent it instead yields the `-32603` internal error above). -/
theorem notification_methods_empty_result (id : RId)
    (p : Option (List (String × Json))) :
    process_mcp_request { id := id, method := "notifications/progress", params := p } =
      some { id := id, result := some (Json.obj []), error := none } ∧
    ∀ ps, p = some ps →
      process_mcp_request { id := id, method := "notifications/cancelled", params := p } =
        some { id := id, result := some (Json.obj []), error := none } := by
  refine ⟨rfl, ?_⟩
  rintro ps rfl
  rfl

/-- Witness for the amended C4 at concrete inputs. -/
theorem notification_methods_empty_result_witness :
    process_mcp_request { id := RId.num 2, method := "notifications/cancelled",
                          params := some [] } =
      some { id := RId.num 2, result := some (Json.obj []), error := none } :=
  (notification_methods_empty_result (RId.num 2) (some [])).2 [] rfl

/-- C3: for a known prompt name, `handle_get_prompt` returns Python `None`
(the success `return` is unreachable dead code nested inside the
unknown-name branch), so `process_mcp_request` produces no response at all;
only the unknown-name path behaves as specified, with `-32601`. -/
theorem prompts_get_known_name_returns_none :
    process_mcp_request { id := RId.num 11, method := "prompts/get",
                          params := some [("name", Json.str "weather_analysis")] } = none ∧
    process_mcp_request { id := RId.num 11, method := "prompts/get",
                          params := some [("name", Json.str "outfit_recommendation")] } = none ∧
    process_mcp_request { id := RId.num 11, method := "prompts/get",
                          params := some [("name", Json.str "unknown_prompt")] } =
      some { id := RId.num 11, result := none,
             error := some { code := -32601,
                             message := "Unknown prompt: " ++ "unknown_prompt",
                             data := none } } :=
  ⟨rfl, rfl, rfl⟩

/-- Every response produced by the tool dispatch body carries the supplied
request id. -/
theorem call_tool_dispatch_id (id : RId) (n a : Json) (r : MCPResponse)
    (h : call_tool_dispatch id n a = PyResult.ok r) : r.id = id := by
  unfold call_tool_dispatch at h
  repeat' split at h
  all_goals first
    | exact PyResult.noConfusion h
    | (injection h with h; subst h; rfl)

/-- The lemma target `handle_call_tool` echoes the request id on every path. -/
theorem handle_call_tool_id (req : MCPRequest) :
    (handle_call_tool req).id = req.id := by
  unfold handle_call_tool
  split
  · rfl
  · next tool_name _ =>
    cases hc : call_tool_dispatch req.id tool_name
        ((getParam req.params "arguments").getD (Json.obj [])) with
    | ok resp => simp only [hc]; exact call_tool_dispatch_id _ _ _ _ hc
    | exc e => simp only [hc]

/-- The lemma target `handle_read_resource` echoes the request id on every path. -/
theorem handle_read_resource_id (req : MCPRequest) :
    (handle_read_resource req).id = req.id := by
  unfold handle_read_resource
  repeat' split
  all_goals rfl

/-- The lemma target `handle_get_prompt` echoes the request id on every path that returns a
response. -/
theorem handle_get_prompt_id (req : MCPRequest) (r : MCPResponse)
    (h : handle_get_prompt req = PyResult.ok (some r)) : r.id = req.id := by
  unfold handle_get_prompt at h
  dsimp only at h
  repeat' split at h
  all_goals first
    | exact PyResult.noConfusion h
    | (injection h with h; exact Option.noConfusion h)
    | (injection h with h; injection h with h; subst h; rfl)

/-- The lemma target `handle_notification` echoes the request id whenever it returns. -/
theorem handle_notification_id (req : MCPRequest) (r : MCPResponse)
    (h : handle_notification req = PyResult.ok r) : r.id = req.id := by
  unfold handle_notification at h
  repeat' split at h
  all_goals first
    | exact PyResult.noConfusion h
    | (injection h with h; subst h; rfl)

/-- Inversion for `liftSome`. -/
theorem liftSome_ok (x : PyResult MCPResponse) (r : MCPResponse)
    (h : liftSome x = PyResult.ok (some r)) : x = PyResult.ok r := by
  cases x with
  | ok v => injection h with h; injection h with h; subst h; rfl
  | exc e => exact PyResult.noConfusion h

/-- Every response the dispatch body returns carries the request id. -/
theorem dispatch_some_id (req : MCPRequest) (r : MCPResponse)
    (h : dispatch req = PyResult.ok (some r)) : r.id = req.id := by
  unfold dispatch at h
  repeat' split at h
  all_goals first
    | exact handle_get_prompt_id _ _ h
    | exact handle_notification_id _ _ (liftSome_ok _ _ h)
    | (injection h with h; injection h with h; subst h;
       first
         | rfl
         | exact handle_read_resource_id _
         | exact handle_call_tool_id _)

/-- C6 (amended): whenever `process_mcp_request` returns a response, its id
is the request id, with the string/integer arm preserved (no coercion).
(The amendment is forced by the `prompts/get` dead-code defect: for a known
prompt name no response is returned at all.) -/
theorem response_id_echoes_request (req : MCPRequest) (r : MCPResponse)
    (h : process_mcp_request req = some r) : r.id = req.id := by
  unfold process_mcp_request at h
  cases hd : dispatch req with
  | ok o =>
    rw [hd] at h
    cases o with
    | none => exact Option.noConfusion h
    | some v =>
      injection h with h
      subst h
      exact dispatch_some_id _ _ hd
  | exc e =>
    rw [hd] at h
    injection h with h
    subst h
    rfl

/-- Witness for the amended C6: a concrete `initialize` call, with both a
string id and an integer id. -/
theorem response_id_echoes_request_witness :
    ({ id := RId.num 5, result := some initializeResult } : MCPResponse).id =
      ({ id := RId.num 5, method := "initialize" } : MCPRequest).id ∧
    ({ id := RId.str "abc", result := some initializeResult } : MCPResponse).id =
      ({ id := RId.str "abc", method := "initialize" } : MCPRequest).id :=
  ⟨response_id_echoes_request { id := RId.num 5, method := "initialize" }
      { id := RId.num 5, result := some initializeResult } rfl,
   response_id_echoes_request { id := RId.str "abc", method := "initialize" }
      { id := RId.str "abc", result := some initializeResult } rfl⟩

/-- C6 counterexample: for the recognized method `prompts/get` with a known
prompt name, `process_mcp_request` returns no response at all (Python
`None`), so there is no response in which the id could be echoed. -/
theorem id_echo_fails_on_known_prompt :
    process_mcp_request { id := RId.str "req-42", method := "prompts/get",
                          params := some [("name", Json.str "weather_analysis")] } = none ∧
    ¬ ∃ r : MCPResponse,
        process_mcp_request { id := RId.str "req-42", method := "prompts/get",
                              params := some [("name", Json.str "weather_analysis")] } = some r := by
  refine ⟨rfl, ?_⟩
  rintro ⟨r, hr⟩
  have h0 : process_mcp_request { id := RId.str "req-42", method := "prompts/get", params := some [("name", Json.str "weather_analysis")] } = none := rfl
  rw [h0] at hr
  exact Option.noConfusion hr

/-- With `location` absent from the arguments mapping, the shared guard
raises `ValueError("Location is required")`. -/
theorem locationArg_missing (args : List (String × Json))
    (h : List.lookup "location" args = none) :
    locationArg (Json.obj args) = PyResult.exc "Location is required" := by
  unfold locationArg jsonGet
  dsimp only
  rw [h]
  rfl

/-- For each of the four registered tools, a missing `location` argument
makes the dispatch body raise `ValueError("Location is required")`. -/
theorem call_tool_registered_missing_location (id : RId) (t : String)
    (args : List (String × Json))
    (hmem : t ∈ (["get_weather", "get_forecast", "get_weather_insights",
                  "get_weather_summary_advisory"] : List String))
    (hloc : List.lookup "location" args = none) :
    call_tool_dispatch id (Json.str t) (Json.obj args) =
      PyResult.exc "Location is required" := by
  have hl := locationArg_missing args hloc
  fin_cases hmem <;> (unfold call_tool_dispatch; rw [hl]; rfl)

/-- C2: the envelope-level and tool-result-level error channels of
`tools/call` never mix: an unregistered tool name yields the envelope error
`-32601` with no result, while a registered tool whose arguments omit the
required `location` yields a successful envelope whose result carries
`isError = true` and the single text block
Error executing tool NAME followed by the message Location is required,
with NAME quoted as in the source f-string. -/
theorem tools_call_two_error_channels (id : RId) (ps : List (String × Json))
    (t : String)
    (hname : List.lookup "name" ps = some (Json.str t)) :
    (t ∉ (["get_weather", "get_forecast", "get_weather_insights",
           "get_weather_summary_advisory"] : List String) →
      process_mcp_request { id := id, method := "tools/call", params := some ps } =
        some { id := id, result := none,
               error := some { code := -32601, message := "Unknown tool: " ++ t,
                               data := none } }) ∧
    (∀ args : List (String × Json),
      List.lookup "arguments" ps = some (Json.obj args) →
      List.lookup "location" args = none →
      t ∈ (["get_weather", "get_forecast", "get_weather_insights",
            "get_weather_summary_advisory"] : List String) →
      process_mcp_request { id := id, method := "tools/call", params := some ps } =
        some { id := id, error := none,
               result := some (toolTextResult
                 ("Error executing tool " ++ apos ++ t ++ apos ++ ": " ++
                   "Location is required") true) }) := by
  have hproc : process_mcp_request { id := id, method := "tools/call", params := some ps } =
      handle_call_tool { id := id, method := "tools/call", params := some ps } := rfl
  constructor
  · intro hnot
    have hne1 : t ≠ "get_weather" := fun hh => hnot (by rw [hh]; simp)
    have hne2 : t ≠ "get_forecast" := fun hh => hnot (by rw [hh]; simp)
    have hne3 : t ≠ "get_weather_insights" := fun hh => hnot (by rw [hh]; simp)
    have hne4 : t ≠ "get_weather_summary_advisory" := fun hh => hnot (by rw [hh]; simp)
    rw [hproc]
    unfold handle_call_tool
    simp only [getParam]
    rw [hname]
    dsimp only
    unfold call_tool_dispatch
    rw [if_neg (by simp [Json.eqStr, hne1]), if_neg (by simp [Json.eqStr, hne2]),
      if_neg (by simp [Json.eqStr, hne3]), if_neg (by simp [Json.eqStr, hne4])]
    rfl
  · intro args harg hloc hmem
    rw [hproc]
    unfold handle_call_tool
    simp only [getParam]
    rw [hname, harg]
    dsimp only
    rw [Option.getD_some, call_tool_registered_missing_location id t args hmem hloc]
    rfl

/-- Witness for C2: an unregistered tool name, and `get_weather` with empty
arguments. -/
theorem tools_call_two_error_channels_witness :
    (process_mcp_request { id := RId.num 21, method := "tools/call", params := some [("name", Json.str "frobnicate"), ("arguments", Json.obj [])] } =
      some { id := RId.num 21, result := none,
             error := some { code := -32601, message := "Unknown tool: " ++ "frobnicate",
                             data := none } }) ∧
    (process_mcp_request { id := RId.num 22, method := "tools/call", params := some [("name", Json.str "get_weather"), ("arguments", Json.obj [])] } =
      some { id := RId.num 22, error := none,
             result := some (toolTextResult
               ("Error executing tool " ++ apos ++ "get_weather" ++ apos ++ ": " ++
                 "Location is required") true) }) :=
  ⟨(tools_call_two_error_channels (RId.num 21)
      [("name", Json.str "frobnicate"), ("arguments", Json.obj [])] "frobnicate" rfl).1
      (by decide),
   (tools_call_two_error_channels (RId.num 22)
      [("name", Json.str "get_weather"), ("arguments", Json.obj [])] "get_weather" rfl).2
      [] rfl rfl (by decide)⟩

/-- C7: `resources/read` returns the two distinct static payloads for the
two known uris, and `-32602` for every other uri value as well as for a
request whose params are absent or lack `uri`. -/
theorem read_resource_contract :
    (∀ id : RId,
      process_mcp_request { id := id, method := "resources/read", params := some [("uri", Json.str "weather://current")] } =
        some { id := id, error := none,
               result := some (readResourceResult (Json.str "weather://current")
                 currentResourceContent) }) ∧
    (∀ id : RId,
      process_mcp_request { id := id, method := "resources/read", params := some [("uri", Json.str "weather://forecast")] } =
        some { id := id, error := none,
               result := some (readResourceResult (Json.str "weather://forecast")
                 forecastResourceContent) }) ∧
    readResourceResult (Json.str "weather://current") currentResourceContent ≠
      readResourceResult (Json.str "weather://forecast") forecastResourceContent ∧
    (∀ (id : RId) (ps : List (String × Json)) (u : Json),
      List.lookup "uri" ps = some u →
      u.eqStr "weather://current" = false →
      u.eqStr "weather://forecast" = false →
      ∃ msg, process_mcp_request { id := id, method := "resources/read", params := some ps } =
        some { id := id, result := none,
               error := some { code := -32602, message := msg, data := none } }) ∧
    (∀ (id : RId) (p : Option (List (String × Json))),
      getParam p "uri" = none →
      process_mcp_request { id := id, method := "resources/read", params := p } =
        some { id := id, result := none,
               error := some { code := -32602, message := "Missing uri parameter",
                               data := none } }) := by
  refine ⟨fun id => rfl, fun id => rfl, ?_, ?_, ?_⟩
  · intro hcontra
    simp only [readResourceResult, currentResourceContent, forecastResourceContent] at hcontra
    simp at hcontra
  · intro id ps u huri h1 h2
    refine ⟨"Unknown resource: " ++ u.pyStr, ?_⟩
    have hproc : process_mcp_request { id := id, method := "resources/read", params := some ps } =
        some (handle_read_resource { id := id, method := "resources/read", params := some ps }) := rfl
    rw [hproc]
    unfold handle_read_resource
    simp only [getParam]
    rw [huri]
    dsimp only
    rw [if_neg (by simp [h1]), if_neg (by simp [h2])]
  · intro id p hnone
    have hproc : process_mcp_request { id := id, method := "resources/read", params := p } =
        some (handle_read_resource { id := id, method := "resources/read", params := p }) := rfl
    rw [hproc]
    unfold handle_read_resource
    rw [hnone]

/-- Witness for C7 at concrete inputs: both known uris, one unknown uri,
and a request without params. -/
theorem read_resource_contract_witness :
    (process_mcp_request { id := RId.num 31, method := "resources/read", params := some [("uri", Json.str "weather://current")] } =
      some { id := RId.num 31, error := none,
             result := some (readResourceResult (Json.str "weather://current")
               currentResourceContent) }) ∧
    (∃ msg, process_mcp_request { id := RId.num 32, method := "resources/read", params := some [("uri", Json.str "weather://nope")] } =
      some { id := RId.num 32, result := none,
             error := some { code := -32602, message := msg, data := none } }) ∧
    (process_mcp_request { id := RId.num 33, method := "resources/read", params := none } =
      some { id := RId.num 33, result := none,
             error := some { code := -32602, message := "Missing uri parameter",
                             data := none } }) :=
  ⟨read_resource_contract.1 (RId.num 31),
   read_resource_contract.2.2.2.1 (RId.num 32) [("uri", Json.str "weather://nope")]
     (Json.str "weather://nope") rfl (by decide) (by decide),
   read_resource_contract.2.2.2.2 (RId.num 33) none rfl⟩
